import Mathlib

/-!
Shallow embedding of the presence-session tracker of
DiscordOnlineTimeTrackerBot (`src/tracker.py` and `src/database.py`).

Timestamps (`datetime`) are modelled as integers (seconds on an absolute
scale) and `timedelta` values as integers (seconds).  The SQLite table
`presence_sessions` is modelled as a list of rows in insertion order
together with the next `AUTOINCREMENT` id; the in-memory dict
`PresenceTracker._active_sessions` is modelled as an association list with
unique keys maintained by construction.  Raw status inputs
(`None` or a string; the `discord.Status` branch of `_normalize_status`
just extracts the same lowercase string value) are modelled as
`Option String`.
-/

namespace Tracker

/-- Embeds `ActiveSession` of `src/tracker.py` (lines 19-25): an in-memory
session that has not yet closed. -/
structure ActiveSession where
  row_id : Nat
  started_at : Int
  status : String
deriving DecidableEq, Repr

/-- Embeds `PresenceSession` of `src/database.py` (lines 13-22): one row of
the `presence_sessions` table. -/
structure PresenceSession where
  row_id : Nat
  guild_id : Int
  user_id : Int
  status : String
  started_at : Int
  ended_at : Option Int
deriving DecidableEq, Repr

/-- Combined system state: the durable store (rows in insertion order plus
the next autoincrement id, as in `src/database.py`) and the tracker's
in-memory map `_active_sessions` (`src/tracker.py` line 35). -/
structure Sys where
  db : List PresenceSession
  nextId : Nat
  active : List ((Int × Int) × ActiveSession)
deriving DecidableEq, Repr

/-- Lookup in the association list modelling the `_active_sessions` dict. -/
def lookupKey (m : List ((Int × Int) × ActiveSession)) (k : Int × Int) :
    Option ActiveSession :=
  match m with
  | [] => none
  | (k', v) :: rest => if k' = k then some v else lookupKey rest k

/-- Removal of a key from the `_active_sessions` dict (`dict.pop`). -/
def eraseKey (m : List ((Int × Int) × ActiveSession)) (k : Int × Int) :
    List ((Int × Int) × ActiveSession) :=
  m.filter (fun e => decide (e.1 ≠ k))

/-- Assignment `self._active_sessions[key] = v`. -/
def setKey (m : List ((Int × Int) × ActiveSession)) (k : Int × Int)
    (v : ActiveSession) : List ((Int × Int) × ActiveSession) :=
  (k, v) :: eraseKey m k

/-- Embeds `PresenceTracker.TRACKED_STATUSES` (`src/tracker.py` line 31). -/
def TRACKED_STATUSES : List String := ["online", "idle", "dnd"]

/-- Lowercasing of `str.lower()`, modelled as a character-wise map (the
status labels involved are ASCII). -/
def lowerString (s : String) : String :=
  String.mk (s.data.map Char.toLower)

/-- Embeds `PresenceTracker._normalize_status` (`src/tracker.py` lines
140-145): `None` becomes `"offline"`, anything else is lowercased (the
`discord.Status` branch yields the same lowercase `.value` string). -/
def normalize_status (status : Option String) : String :=
  match status with
  | none => "offline"
  | some s => lowerString s

/-- Embeds `PresenceTracker._is_tracked` (`src/tracker.py` lines 153-154). -/
def is_tracked (status : String) : Bool :=
  TRACKED_STATUSES.contains status

/-- Embeds `PresenceTracker._normalize_statuses` (`src/tracker.py` lines
147-151): `None` falls back to the tracked set, otherwise each entry is
normalized, untracked entries are dropped, and an empty result falls back
to the tracked set (the `or` on the tuple). -/
def normalize_statuses (statuses : Option (List (Option String))) :
    List String :=
  match statuses with
  | none => TRACKED_STATUSES
  | some l =>
      let kept := (l.map normalize_status).filter is_tracked
      if kept = [] then TRACKED_STATUSES else kept

/-- Embeds `Database._insert_session_sync` (`src/database.py` lines
95-107): appends an open row and returns its autoincrement id. -/
def insert_session (sys : Sys) (guild_id user_id : Int) (status : String)
    (started_at : Int) : Nat × Sys :=
  let rid := sys.nextId
  (rid,
   { sys with
      db := sys.db ++
        [{ row_id := rid, guild_id := guild_id, user_id := user_id,
           status := status, started_at := started_at, ended_at := none }]
      nextId := rid + 1 })

/-- Embeds `Database._complete_session_sync` (`src/database.py` lines
112-122): `UPDATE presence_sessions SET ended_at = ? WHERE id = ?`. -/
def complete_session (db : List PresenceSession) (rid : Nat)
    (ended_at : Int) : List PresenceSession :=
  db.map (fun r => if r.row_id = rid then { r with ended_at := some ended_at } else r)

/-- Effect of `Database._close_open_sessions_sync` on a single row:
stamp `ended_at` if the row is open, otherwise leave it alone. -/
def close_row (closed_at : Int) (r : PresenceSession) : PresenceSession :=
  if r.ended_at = none then { r with ended_at := some closed_at } else r

/-- Embeds `Database._close_open_sessions_sync` (`src/database.py` lines
72-82): `UPDATE presence_sessions SET ended_at = ? WHERE ended_at IS NULL`. -/
def close_open_sessions (db : List PresenceSession) (closed_at : Int) :
    List PresenceSession :=
  db.map (close_row closed_at)

/-- Row predicate of the `WHERE` clause in `Database._fetch_sessions_sync`
(`src/database.py` line 142): `guild_id = ? AND user_id = ? AND status IN
(...)`. -/
def matches_query (guild_id user_id : Int) (statuses : List String)
    (r : PresenceSession) : Bool :=
  r.guild_id == guild_id && r.user_id == user_id && statuses.contains r.status

/-- Embeds `Database._fetch_sessions_sync` (`src/database.py` lines
132-163): all rows (open or closed) for the key whose status is in the
given set, ordered by `started_at` ascending. -/
def fetch_sessions (db : List PresenceSession) (guild_id user_id : Int)
    (statuses : List String) : List PresenceSession :=
  (db.filter (matches_query guild_id user_id statuses)).mergeSort
    (fun a b => a.started_at ≤ b.started_at)

/-- Embeds `PresenceTracker.setup` (`src/tracker.py` lines 37-42):
`initialize` (schema creation, a no-op on the model) followed by
`close_open_sessions(now)`. -/
def setup (sys : Sys) (now : Int) : Sys :=
  { sys with db := close_open_sessions sys.db now }

/-- Embeds `PresenceTracker._close_session` (`src/tracker.py` lines
97-101): pop the key; if a session was present, stamp its row. -/
def close_session (sys : Sys) (key : Int × Int) (ended_at : Int) : Sys :=
  match lookupKey sys.active key with
  | none => sys
  | some session =>
      { sys with
          active := eraseKey sys.active key
          db := complete_session sys.db session.row_id ended_at }

/-- Embeds the close condition of `src/tracker.py` line 81:
`before_tracked and active and (not after_tracked or after != active.status)`. -/
def should_close (active : Option ActiveSession)
    (before_tracked after_tracked : Bool) (after : String) : Bool :=
  before_tracked &&
    match active with
    | none => false
    | some act => !after_tracked || after != act.status

/-- Embeds lines 87-88 (and the identical lines 91-92) of
`src/tracker.py`: insert a new open row and record the returned id in
`_active_sessions[key]`. -/
def open_new (sys : Sys) (key : Int × Int) (status : String)
    (timestamp : Int) : Sys :=
  let ins := insert_session sys key.1 key.2 status timestamp
  { ins.2 with
      active := setKey ins.2.active key
        { row_id := ins.1, started_at := timestamp, status := status } }

/-- Embeds `PresenceTracker.handle_presence_update` (`src/tracker.py`
lines 62-95) with an explicit `timestamp` argument (the `None` default
just substitutes the current time).  The Python rebinds the local
`active` to `None` when the close branch of line 81 runs; here that
dataflow is expanded statically: in the close branch the subsequent
`after_tracked` test always sees `active = None` (so it inserts), and the
final `elif` never fires; in the other branch `active` is unchanged. -/
def handle_presence_update (sys : Sys) (guild_id user_id : Int)
    (before_status after_status : Option String) (timestamp : Int) : Sys :=
  let before := normalize_status before_status
  let after := normalize_status after_status
  let key : Int × Int := (guild_id, user_id)
  let active := lookupKey sys.active key
  let before_tracked := is_tracked before
  let after_tracked := is_tracked after
  if should_close active before_tracked after_tracked after then
    let sys1 := close_session sys key timestamp
    if after_tracked then open_new sys1 key after timestamp else sys1
  else
    if after_tracked then
      match active with
      | none => open_new sys key after timestamp
      | some act =>
          if act.status != after then open_new sys key after timestamp
          else sys
    else
      match active with
      | some _ => close_session sys key timestamp
      | none => sys

/-- Duration contributed by one fetched row in the loop of
`get_total_duration` (`src/tracker.py` lines 116-118):
`(ended_at or now) - started_at`. -/
def session_duration (now : Int) (r : PresenceSession) : Int :=
  (match r.ended_at with
   | some e => e
   | none => now) - r.started_at

/-- Embeds `PresenceTracker.get_total_duration` (`src/tracker.py` lines
103-123) with explicit `now`. -/
def get_total_duration (sys : Sys) (guild_id user_id : Int)
    (statuses : Option (List (Option String))) (now : Int) : Int :=
  let statuses_tuple := normalize_statuses statuses
  let sessions := fetch_sessions sys.db guild_id user_id statuses_tuple
  let total := sessions.foldl (fun acc r => acc + session_duration now r) 0
  match lookupKey sys.active (guild_id, user_id) with
  | some act =>
      if statuses_tuple.contains act.status then
        total + (now - act.started_at)
      else total
  | none => total

/-- Add-on of the in-memory active session in `get_total_duration`
(`src/tracker.py` lines 119-122): `now - active.started_at` when the key
has an active session whose status is in the filter, else zero. -/
def active_contribution (sys : Sys) (guild_id user_id : Int)
    (statuses : List String) (now : Int) : Int :=
  match lookupKey sys.active (guild_id, user_id) with
  | some act => if statuses.contains act.status then now - act.started_at else 0
  | none => 0

/-- Embeds `PresenceTracker.format_timedelta` (`src/tracker.py` lines
125-138); Python `divmod` is floor division/modulus, hence `fdiv`/`fmod`. -/
def format_timedelta (delta : Int) : String :=
  let total_seconds := delta
  let hours := total_seconds.fdiv 3600
  let remainder := total_seconds.fmod 3600
  let minutes := remainder.fdiv 60
  let seconds := remainder.fmod 60
  let parts : List String := if hours ≠ 0 then [toString hours ++ "h"] else []
  let parts := if minutes ≠ 0 then parts ++ [toString minutes ++ "m"] else parts
  let parts := if seconds ≠ 0 ∨ parts = [] then parts ++ [toString seconds ++ "s"] else parts
  String.intercalate " " parts

/-- Empty system: fresh database (SQLite autoincrement ids start at 1)
and an empty `_active_sessions` map. -/
def emptySys : Sys := { db := [], nextId := 1, active := [] }

/-- Observable used by the open-row invariants: the store rows for a key
with `ended_at IS NULL`. -/
def open_rows (db : List PresenceSession) (guild_id user_id : Int) :
    List PresenceSession :=
  db.filter (fun r => r.guild_id == guild_id && r.user_id == user_id &&
    r.ended_at == none)

/-- Span of a closed row between its start and close timestamps
(`ended_at - started_at`); an open row, for which the notion is
undefined, is assigned span zero. -/
def closed_span (r : PresenceSession) : Int :=
  (match r.ended_at with
   | some e => e
   | none => r.started_at) - r.started_at

/-- Modelled from the spec's words for the duration formatter: renders
the components `h`, `m`, `s`, "omitting zero-valued leading components
except that if all components are zero the seconds component is still
shown".  Zero components are dropped only while they lead; later
components are always rendered. -/
def format_spec_leading (delta : Int) : String :=
  let hours := delta.fdiv 3600
  let remainder := delta.fmod 3600
  let minutes := remainder.fdiv 60
  let seconds := remainder.fmod 60
  let comps : List (Int × String) := [(hours, "h"), (minutes, "m"), (seconds, "s")]
  let kept := comps.dropWhile (fun c => c.1 == 0)
  match kept with
  | [] => "0s"
  | _ => String.intercalate " " (kept.map (fun c => toString c.1 ++ c.2))

/-- Amended reading of the formatter sentence: every zero-valued
component is omitted, wherever it occurs, except that the seconds
component is kept when it is nonzero or when hours and minutes were both
omitted. -/
def format_spec_amended (delta : Int) : String :=
  let hours := delta.fdiv 3600
  let remainder := delta.fmod 3600
  let minutes := remainder.fdiv 60
  let seconds := remainder.fmod 60
  String.intercalate " "
    ((if hours ≠ 0 then [toString hours ++ "h"] else []) ++
     (if minutes ≠ 0 then [toString minutes ++ "m"] else []) ++
     (if seconds ≠ 0 ∨ (hours = 0 ∧ minutes = 0) then [toString seconds ++ "s"]
      else []))

/-!
Failure-instrumented variant of the transition handler, for the
atomicity-on-store-failure claim.  `failAt = some n` makes the `n`-th
store call (0-based, counted within one `handle_presence_update`
invocation) raise, as an I/O failure of the corresponding `await
self._database....` would.  On a raise the result is `Except.error` of
the system state at the moment the exception propagates: the failing
store operation has not applied, while in-memory mutations already made
by the surrounding Python code are kept — exactly the exception
semantics of `src/tracker.py`.
-/

/-- Failure-instrumented `PresenceTracker._close_session` (`src/tracker.py`
lines 97-101): the `dict.pop` on line 98 happens before the store call of
line 101, so when that call raises, the popped entry is already gone. -/
def close_sessionF (failAt : Option Nat) (n : Nat) (sys : Sys)
    (key : Int × Int) (ended_at : Int) : Except Sys (Sys × Nat) :=
  match lookupKey sys.active key with
  | none => Except.ok (sys, n)
  | some session =>
      let sys1 := { sys with active := eraseKey sys.active key }
      if failAt = some n then Except.error sys1
      else
        Except.ok
          ({ sys1 with db := complete_session sys1.db session.row_id ended_at },
           n + 1)

/-- Failure-instrumented `Database.insert_session` call: raises before
any effect when selected by `failAt`. -/
def insert_sessionF (failAt : Option Nat) (n : Nat) (sys : Sys)
    (guild_id user_id : Int) (status : String) (started_at : Int) :
    Except Sys (Nat × Sys × Nat) :=
  if failAt = some n then Except.error sys
  else
    let ins := insert_session sys guild_id user_id status started_at
    Except.ok (ins.1, ins.2, n + 1)

/-- Failure-instrumented `open_new` (lines 87-88 / 91-92 of
`src/tracker.py`): the map assignment happens only after the awaited
insert returns. -/
def open_newF (failAt : Option Nat) (n : Nat) (sys : Sys)
    (key : Int × Int) (status : String) (timestamp : Int) :
    Except Sys (Sys × Nat) :=
  match insert_sessionF failAt n sys key.1 key.2 status timestamp with
  | Except.error e => Except.error e
  | Except.ok (rid, sys2, n2) =>
      Except.ok
        ({ sys2 with
            active := setKey sys2.active key
              { row_id := rid, started_at := timestamp, status := status } },
         n2)

/-- Failure-instrumented `PresenceTracker.handle_presence_update`
(`src/tracker.py` lines 62-95), with the same statically expanded
dataflow as `handle_presence_update`. -/
def handle_presence_updateF (failAt : Option Nat) (sys : Sys)
    (guild_id user_id : Int) (before_status after_status : Option String)
    (timestamp : Int) : Except Sys Sys :=
  let before := normalize_status before_status
  let after := normalize_status after_status
  let key : Int × Int := (guild_id, user_id)
  let active := lookupKey sys.active key
  let before_tracked := is_tracked before
  let after_tracked := is_tracked after
  if should_close active before_tracked after_tracked after then
    match close_sessionF failAt 0 sys key timestamp with
    | Except.error e => Except.error e
    | Except.ok (sys1, n1) =>
        if after_tracked then
          (open_newF failAt n1 sys1 key after timestamp).map (fun p => p.1)
        else Except.ok sys1
  else
    if after_tracked then
      match active with
      | none => (open_newF failAt 0 sys key after timestamp).map (fun p => p.1)
      | some act =>
          if act.status != after then
            (open_newF failAt 0 sys key after timestamp).map (fun p => p.1)
          else Except.ok sys
    else
      match active with
      | some _ => (close_sessionF failAt 0 sys key timestamp).map (fun p => p.1)
      | none => Except.ok sys

/-!
Helper lemmas about the association-list model of `_active_sessions`.
-/

theorem lookupKey_eraseKey_self (m : List ((Int × Int) × ActiveSession))
    (k : Int × Int) : lookupKey (eraseKey m k) k = none := by
  induction m with
  | nil => rfl
  | cons e rest ih =>
      by_cases h : e.1 = k
      · simpa [eraseKey, List.filter_cons, h] using ih
      · simpa [eraseKey, List.filter_cons, h, lookupKey] using ih

theorem lookupKey_setKey_self (m : List ((Int × Int) × ActiveSession))
    (k : Int × Int) (v : ActiveSession) : lookupKey (setKey m k v) k = some v := by
  simp [setKey, lookupKey]

/-- C4, counterexample: the claim says zero-valued *leading* components
are omitted; at 3601 seconds (1h 0m 1s) the code omits the non-leading
zero minutes component as well, so the rendered string differs from the
leading-omission reading of the spec. -/
theorem c4_formatter_leading_counterexample :
    format_timedelta 3601 = "1h 1s" ∧
    format_spec_leading 3601 = "1h 0m 1s" ∧
    format_timedelta 3601 ≠ format_spec_leading 3601 := by
  decide

/-- C4, amended: for every nonnegative duration the formatter renders
space-joined `h`/`m`/`s` components omitting every zero-valued component
(not only leading ones), keeping the seconds component when it is nonzero
or when hours and minutes were both omitted; the given examples hold; the
function is a pure total function by construction. -/
theorem c4_formatter_amended :
    (∀ delta : Int, 0 ≤ delta →
        format_timedelta delta = format_spec_amended delta) ∧
    format_timedelta 7509 = "2h 5m 9s" ∧
    format_timedelta 0 = "0s" ∧
    format_timedelta 90 = "1m 30s" := by
  refine ⟨?_, by decide, by decide, by decide⟩
  intro delta _
  unfold format_timedelta format_spec_amended
  by_cases hh : delta.fdiv 3600 = 0 <;>
    by_cases hm : (delta.fmod 3600).fdiv 60 = 0 <;>
      by_cases hs : (delta.fmod 3600).fmod 60 = 0 <;>
        simp [hh, hm, hs]

/-- C4 witness: the amended equation instantiated at 90 seconds. -/
theorem c4_formatter_amended_witness :
    (0 : Int) ≤ 90 ∧ format_timedelta 90 = format_spec_amended 90 :=
  ⟨by decide, c4_formatter_amended.1 90 (by decide)⟩

/-- When the close condition of `src/tracker.py` line 81 holds, an
active session exists for the key. -/
theorem should_close_isSome {active : Option ActiveSession}
    {bt at1 : Bool} {a : String} (h : should_close active bt at1 a = true) :
    ∃ act, active = some act := by
  cases active with
  | none => simp [should_close] at h
  | some act => exact ⟨act, rfl⟩

/-- Case analysis on the in-memory entry for the key after one
`handle_presence_update` call: if the normalized after-status is tracked
the key maps to an entry carrying that status, otherwise the key is
absent. -/
theorem handle_lookup_cases (sys : Sys) (g u : Int) (b a : Option String)
    (ts : Int) :
    (is_tracked (normalize_status a) = true ∧
      ∃ act,
        lookupKey (handle_presence_update sys g u b a ts).active (g, u) =
          some act ∧ act.status = normalize_status a) ∨
    (is_tracked (normalize_status a) = false ∧
      lookupKey (handle_presence_update sys g u b a ts).active (g, u) = none) := by
  simp only [handle_presence_update]
  by_cases hsc : should_close (lookupKey sys.active (g, u))
      (is_tracked (normalize_status b)) (is_tracked (normalize_status a))
      (normalize_status a) = true
  · obtain ⟨act, hact⟩ := should_close_isSome hsc
    cases hat : is_tracked (normalize_status a) with
    | true =>
        rw [hat] at hsc
        refine Or.inl ⟨rfl, ?_⟩
        simp [hsc, open_new, insert_session, lookupKey_setKey_self]
    | false =>
        rw [hat] at hsc
        refine Or.inr ⟨rfl, ?_⟩
        simp [hsc, close_session, hact, lookupKey_eraseKey_self]
  · cases hat : is_tracked (normalize_status a) with
    | true =>
        rw [hat] at hsc
        refine Or.inl ⟨rfl, ?_⟩
        cases hl : lookupKey sys.active (g, u) with
        | none =>
            rw [hl] at hsc
            simp [hsc, hl, open_new, insert_session, lookupKey_setKey_self]
        | some act =>
            rw [hl] at hsc
            by_cases hst : (act.status != normalize_status a) = true
            · simp [hsc, hl, hst, open_new, insert_session,
                lookupKey_setKey_self]
            · have heq : act.status = normalize_status a := by
                simpa [bne] using hst
              refine ⟨act, ?_, heq⟩
              simp [hsc, hl, hst]
    | false =>
        rw [hat] at hsc
        refine Or.inr ⟨rfl, ?_⟩
        cases hl : lookupKey sys.active (g, u) with
        | none =>
            rw [hl] at hsc
            simp [hsc, hl]
        | some act =>
            rw [hl] at hsc
            simp [hsc, hl, close_session, lookupKey_eraseKey_self]

/-- The transition handler is a no-op when the key has no active session
and the after-status is untracked. -/
theorem handle_noop_of_none_untracked {sys : Sys} {g u : Int}
    (b a : Option String) (ts : Int)
    (h1 : lookupKey sys.active (g, u) = none)
    (h2 : is_tracked (normalize_status a) = false) :
    handle_presence_update sys g u b a ts = sys := by
  simp [handle_presence_update, should_close, h1, h2]

/-- The transition handler is a no-op when the key's active session
already carries the (tracked) after-status. -/
theorem handle_noop_of_same_status {sys : Sys} {g u : Int}
    {act : ActiveSession} (b a : Option String) (ts : Int)
    (h1 : lookupKey sys.active (g, u) = some act)
    (h2 : act.status = normalize_status a)
    (h3 : is_tracked (normalize_status a) = true) :
    handle_presence_update sys g u b a ts = sys := by
  simp [handle_presence_update, should_close, h1, h2, h3]

/-- C6: repeating a `handle_presence_update` call with identical
arguments and `before = after` is absorbed: the second call changes
neither the in-memory map nor the store (the whole system state,
autoincrement counter included, is unchanged), so it opens no session
and performs no store mutation. -/
theorem c6_handle_idempotent (sys : Sys) (g u : Int) (s : Option String)
    (ts : Int) :
    handle_presence_update (handle_presence_update sys g u s s ts) g u s s ts =
      handle_presence_update sys g u s s ts := by
  rcases handle_lookup_cases sys g u s s ts with ⟨hat, act, hl, hstat⟩ | ⟨hat, hl⟩
  · exact handle_noop_of_same_status s s ts hl hstat hat
  · exact handle_noop_of_none_untracked s s ts hl hat

/-- C9: after any successful `handle_presence_update`, the key is in the
in-memory map iff the normalized after-status is tracked, and a present
entry carries exactly the normalized after-status. -/
theorem c9_post_state (sys : Sys) (g u : Int) (b a : Option String)
    (ts : Int) :
    (lookupKey (handle_presence_update sys g u b a ts).active (g, u)).isSome =
      is_tracked (normalize_status a) ∧
    (∀ act,
        lookupKey (handle_presence_update sys g u b a ts).active (g, u) =
          some act → act.status = normalize_status a) := by
  rcases handle_lookup_cases sys g u b a ts with ⟨hat, act, hl, hstat⟩ | ⟨hat, hl⟩
  · refine ⟨by rw [hl, hat]; rfl, ?_⟩
    intro act' hact'
    rw [hl] at hact'
    cases hact'
    exact hstat
  · refine ⟨by rw [hl, hat]; rfl, ?_⟩
    intro act' hact'
    rw [hl] at hact'
    cases hact'

/-- C9 witness: transitioning the empty system to `idle` leaves the key
mapped to an entry whose status is the normalized after-status. -/
theorem c9_post_state_witness :
    lookupKey (handle_presence_update emptySys 1 2 none (some "idle") 5).active
        (1, 2) = some { row_id := 1, started_at := 5, status := "idle" } ∧
    ActiveSession.status { row_id := 1, started_at := 5, status := "idle" } =
      normalize_status (some "idle") :=
  ⟨by decide,
   (c9_post_state emptySys 1 2 none (some "idle") 5).2
     { row_id := 1, started_at := 5, status := "idle" } (by decide)⟩

/-!
Summation infrastructure for `get_total_duration`.
-/

/-- The duration-accumulation loop of `get_total_duration` is a sum. -/
theorem foldl_add_map (f : PresenceSession → Int) (l : List PresenceSession) :
    ∀ init : Int,
      l.foldl (fun acc r => acc + f r) init = init + (l.map f).sum := by
  induction l with
  | nil => intro init; simp
  | cons a t ih =>
      intro init
      simp only [List.foldl_cons, List.map_cons, List.sum_cons, ih]
      ring

/-- The `ORDER BY started_at` of the fetch does not affect sums over the
fetched rows. -/
theorem fetch_sessions_sum (db : List PresenceSession) (g u : Int)
    (statuses : List String) (f : PresenceSession → Int) :
    ((fetch_sessions db g u statuses).map f).sum =
      ((db.filter (matches_query g u statuses)).map f).sum := by
  unfold fetch_sessions
  exact ((List.mergeSort_perm _ _).map f).sum_eq

/-- Closed form of `get_total_duration`: the sum of
`(ended_at or now) - started_at` over the store rows matching the
normalized filter, plus the active-session add-on. -/
theorem get_total_duration_eq (sys : Sys) (g u : Int)
    (statuses : Option (List (Option String))) (now : Int) :
    get_total_duration sys g u statuses now =
      ((sys.db.filter (matches_query g u (normalize_statuses statuses))).map
          (session_duration now)).sum +
        active_contribution sys g u (normalize_statuses statuses) now := by
  simp only [get_total_duration, active_contribution, foldl_add_map, zero_add,
    fetch_sessions_sum]
  cases hl : lookupKey sys.active (g, u) with
  | none => simp
  | some act =>
      by_cases hc : act.status ∈ normalize_statuses statuses <;> simp [hc]

/-- C5: in a state where every store row of the key is closed and the key
has no in-memory active session (as immediately after closing a
session), `get_total_duration` equals the sum of
`ended_at - started_at` over the closed rows matching the filtered
statuses, independently of `now`. -/
theorem c5_round_trip (sys : Sys) (g u : Int)
    (statuses : Option (List (Option String))) (now : Int)
    (hclosed : ∀ r ∈ sys.db, r.guild_id = g → r.user_id = u →
      r.ended_at ≠ none)
    (hact : lookupKey sys.active (g, u) = none) :
    get_total_duration sys g u statuses now =
      ((sys.db.filter (matches_query g u (normalize_statuses statuses))).map
        closed_span).sum := by
  rw [get_total_duration_eq]
  have hcong :
      (sys.db.filter (matches_query g u (normalize_statuses statuses))).map
          (session_duration now) =
        (sys.db.filter (matches_query g u (normalize_statuses statuses))).map
          closed_span := by
    apply List.map_congr_left
    intro r hr
    obtain ⟨hmem, hq⟩ := List.mem_filter.mp hr
    simp only [matches_query, Bool.and_eq_true, beq_iff_eq] at hq
    obtain ⟨⟨hg, hu⟩, -⟩ := hq
    have hcl := hclosed r hmem hg hu
    cases hend : r.ended_at with
    | none => exact absurd hend hcl
    | some e => simp [session_duration, closed_span, hend]
  rw [hcong]
  simp [active_contribution, hact]

/-- C5 witness: two closed sessions (2h online then 1h idle); the total
over the default filter is the sum of their closed spans. -/
theorem c5_round_trip_witness :
    (∀ r ∈ ([{ row_id := 1, guild_id := 1, user_id := 42, status := "online",
                started_at := 0, ended_at := some 7200 },
              { row_id := 2, guild_id := 1, user_id := 42, status := "idle",
                started_at := 7200, ended_at := some 10800 }] :
              List PresenceSession),
        r.guild_id = 1 → r.user_id = 42 → r.ended_at ≠ none) ∧
    get_total_duration
        { db := [{ row_id := 1, guild_id := 1, user_id := 42,
                   status := "online", started_at := 0, ended_at := some 7200 },
                 { row_id := 2, guild_id := 1, user_id := 42, status := "idle",
                   started_at := 7200, ended_at := some 10800 }],
          nextId := 3, active := [] } 1 42 none 20000 =
      ((List.filter (matches_query 1 42 (normalize_statuses none))
          [{ row_id := 1, guild_id := 1, user_id := 42, status := "online",
             started_at := 0, ended_at := some 7200 },
           { row_id := 2, guild_id := 1, user_id := 42, status := "idle",
             started_at := 7200, ended_at := some 10800 }]).map
        closed_span).sum :=
  ⟨by decide,
   c5_round_trip
     { db := [{ row_id := 1, guild_id := 1, user_id := 42, status := "online",
                started_at := 0, ended_at := some 7200 },
              { row_id := 2, guild_id := 1, user_id := 42, status := "idle",
                started_at := 7200, ended_at := some 10800 }],
       nextId := 3, active := [] } 1 42 none 20000 (by decide) (by decide)⟩

/-- The fetch predicate reads only the key and status fields, which the
startup bulk-close leaves untouched. -/
theorem matches_query_close_row (g u : Int) (statuses : List String)
    (t : Int) (r : PresenceSession) :
    matches_query g u statuses (close_row t r) =
      matches_query g u statuses r := by
  by_cases h : r.ended_at = none <;> simp [close_row, h, matches_query]

/-- Fetching after the startup bulk-close is the bulk-close of the fetch. -/
theorem filter_close_open (db : List PresenceSession) (g u : Int)
    (statuses : List String) (t : Int) :
    (close_open_sessions db t).filter (matches_query g u statuses) =
      (db.filter (matches_query g u statuses)).map (close_row t) := by
  unfold close_open_sessions
  rw [List.filter_map]
  congr 1
  apply List.filter_congr
  intro x _
  exact matches_query_close_row g u statuses t x

/-- C7: a store holding an open row for a key with no in-memory state
has, after `setup()` at time `t`, that row closed with `ended_at = t`,
and the row contributes exactly `t - started_at` to any later duration
query whose (normalized) status filter includes its status. -/
theorem c7_startup_recovery (pre post : List PresenceSession)
    (r : PresenceSession) (nid : Nat)
    (act : List ((Int × Int) × ActiveSession)) (g u t now : Int)
    (statuses : Option (List (Option String)))
    (hopen : r.ended_at = none) (hg : r.guild_id = g) (hu : r.user_id = u)
    (_hnomem : lookupKey act (g, u) = none)
    (hstatus : (normalize_statuses statuses).contains r.status = true) :
    ({ r with ended_at := some t } ∈
        (setup { db := pre ++ r :: post, nextId := nid, active := act } t).db) ∧
    get_total_duration
        (setup { db := pre ++ r :: post, nextId := nid, active := act } t)
        g u statuses now =
      get_total_duration
          (setup { db := pre ++ post, nextId := nid, active := act } t)
          g u statuses now +
        (t - r.started_at) := by
  constructor
  · simp only [setup, close_open_sessions, List.mem_map]
    exact ⟨r, by simp, by simp [close_row, hopen]⟩
  · rw [get_total_duration_eq, get_total_duration_eq]
    have hq : matches_query g u (normalize_statuses statuses) r = true := by
      simp [matches_query, hg, hu]
      simpa using hstatus
    have hdur : session_duration now (close_row t r) = t - r.started_at := by
      simp [close_row, hopen, session_duration]
    simp only [setup, filter_close_open, List.filter_append, List.filter_cons,
      hq, if_true, List.map_append, List.map_cons, List.sum_append,
      List.sum_cons, hdur, active_contribution]
    ring

/-- C7 witness: one stale open row, closed by `setup` at time 150,
contributing `150 - 100` to a later default-filter query. -/
theorem c7_startup_recovery_witness :
    ({ row_id := 1, guild_id := 1, user_id := 2, status := "online",
       started_at := 100, ended_at := some 150 } ∈
        (setup { db := [{ row_id := 1, guild_id := 1, user_id := 2,
                          status := "online", started_at := 100,
                          ended_at := none }],
                 nextId := 2, active := [] } 150).db) ∧
    get_total_duration
        (setup { db := [{ row_id := 1, guild_id := 1, user_id := 2,
                          status := "online", started_at := 100,
                          ended_at := none }],
                 nextId := 2, active := [] } 150) 1 2 none 999 =
      get_total_duration
          (setup { db := [], nextId := 2, active := [] } 150) 1 2 none 999 +
        (150 - 100) :=
  c7_startup_recovery [] []
    { row_id := 1, guild_id := 1, user_id := 2, status := "online",
      started_at := 100, ended_at := none }
    2 [] 1 2 150 999 none rfl rfl rfl rfl rfl

/-- Fallback of `_normalize_statuses`: a filter without any tracked
label normalizes to the full tracked set. -/
theorem normalize_statuses_fallback {l : List (Option String)}
    (h : ∀ x ∈ l, is_tracked (normalize_status x) = false) :
    normalize_statuses (some l) = TRACKED_STATUSES := by
  have hnil : (l.map normalize_status).filter is_tracked = [] := by
    rw [List.filter_eq_nil_iff]
    intro a ha
    obtain ⟨x, hx, hax⟩ := List.mem_map.mp ha
    simp [← hax, h x hx]
  simp [normalize_statuses, hnil]

/-- C8: a status-restricted query excludes rows of other statuses
entirely (adding such a row does not change the total), excludes the
in-memory active session when its status is not in the filter (its
removal does not change the total), and an empty or entirely untracked
filter falls back to the full tracked set. -/
theorem c8_status_filter_semantics (sys : Sys) (g u : Int)
    (fs : Option (List (Option String))) (l : List (Option String))
    (now : Int) (r : PresenceSession) :
    ((normalize_statuses fs).contains r.status = false →
      get_total_duration { sys with db := r :: sys.db } g u fs now =
        get_total_duration sys g u fs now) ∧
    (∀ act, lookupKey sys.active (g, u) = some act →
      (normalize_statuses fs).contains act.status = false →
      get_total_duration sys g u fs now =
        get_total_duration { sys with active := eraseKey sys.active (g, u) }
          g u fs now) ∧
    (normalize_statuses (some []) = TRACKED_STATUSES) ∧
    ((∀ x ∈ l, is_tracked (normalize_status x) = false) →
      normalize_statuses (some l) = TRACKED_STATUSES) := by
  refine ⟨?_, ?_, by decide, normalize_statuses_fallback⟩
  · intro hnot
    rw [get_total_duration_eq, get_total_duration_eq]
    have hq : matches_query g u (normalize_statuses fs) r = false := by
      simp only [matches_query, hnot, Bool.and_false]
    simp [List.filter_cons, hq, active_contribution]
  · intro act hl hnot
    rw [get_total_duration_eq, get_total_duration_eq]
    have hnot' : act.status ∉ normalize_statuses fs := by simpa using hnot
    simp [active_contribution, hl, lookupKey_eraseKey_self, hnot']

/-- C8 witness: a query filtered to `idle` ignores an `online` row, an
`online` active session, and falls back to the tracked set on empty and
on fully untracked filters. -/
theorem c8_status_filter_semantics_witness :
    (get_total_duration
        { db := [{ row_id := 7, guild_id := 1, user_id := 2,
                   status := "online", started_at := 3, ended_at := some 9 }],
          nextId := 8,
          active := [((1, 2), { row_id := 9, started_at := 4,
                                status := "online" })] } 1 2
        (some [some "idle"]) 50 =
      get_total_duration
          { db := [], nextId := 8,
            active := [((1, 2), { row_id := 9, started_at := 4,
                                  status := "online" })] } 1 2
          (some [some "idle"]) 50) ∧
    (get_total_duration
        { db := [], nextId := 8,
          active := [((1, 2), { row_id := 9, started_at := 4,
                                status := "online" })] } 1 2
        (some [some "idle"]) 50 =
      get_total_duration
          { db := [], nextId := 8,
            active := eraseKey
              [((1, 2), { row_id := 9, started_at := 4, status := "online" })]
              (1, 2) } 1 2 (some [some "idle"]) 50) ∧
    normalize_statuses (some []) = TRACKED_STATUSES ∧
    normalize_statuses (some [some "streaming"]) = TRACKED_STATUSES :=
  ⟨(c8_status_filter_semantics
      { db := [], nextId := 8,
        active := [((1, 2), { row_id := 9, started_at := 4,
                              status := "online" })] } 1 2
      (some [some "idle"]) [some "streaming"] 50
      { row_id := 7, guild_id := 1, user_id := 2, status := "online",
        started_at := 3, ended_at := some 9 }).1 (by decide),
   (c8_status_filter_semantics
      { db := [], nextId := 8,
        active := [((1, 2), { row_id := 9, started_at := 4,
                              status := "online" })] } 1 2
      (some [some "idle"]) [some "streaming"] 50
      { row_id := 7, guild_id := 1, user_id := 2, status := "online",
        started_at := 3, ended_at := some 9 }).2.1
     { row_id := 9, started_at := 4, status := "online" } (by decide)
     (by decide),
   by decide,
   (c8_status_filter_semantics
      { db := [], nextId := 8,
        active := [((1, 2), { row_id := 9, started_at := 4,
                              status := "online" })] } 1 2
      (some [some "idle"]) [some "streaming"] 50
      { row_id := 7, guild_id := 1, user_id := 2, status := "online",
        started_at := 3, ended_at := some 9 }).2.2.2 (by decide)⟩

/-- C10: a filter mixing tracked and untracked labels keeps exactly its
tracked members (untracked entries are silently dropped), and the
fallback to the full tracked set happens only when no entry of the
filter is tracked. -/
theorem c10_mixed_filter (l : List (Option String)) :
    ((∃ x, x ∈ l ∧ is_tracked (normalize_status x) = true) →
      normalize_statuses (some l) =
          (l.map normalize_status).filter is_tracked ∧
        ∀ s, s ∈ normalize_statuses (some l) ↔
          (is_tracked s = true ∧ s ∈ l.map normalize_status)) ∧
    ((∀ x ∈ l, is_tracked (normalize_status x) = false) →
      normalize_statuses (some l) = TRACKED_STATUSES) := by
  refine ⟨?_, normalize_statuses_fallback⟩
  rintro ⟨x, hx, htr⟩
  have hne : (l.map normalize_status).filter is_tracked ≠ [] := by
    intro hnil
    have hmem : normalize_status x ∈ (l.map normalize_status).filter is_tracked :=
      List.mem_filter.mpr ⟨List.mem_map_of_mem normalize_status hx, htr⟩
    rw [hnil] at hmem
    exact List.not_mem_nil _ hmem
  have heq : normalize_statuses (some l) =
      (l.map normalize_status).filter is_tracked := by
    simp only [normalize_statuses]
    exact if_neg hne
  refine ⟨heq, ?_⟩
  intro s
  rw [heq, List.mem_filter]
  exact ⟨fun ⟨h1, h2⟩ => ⟨h2, h1⟩, fun ⟨h1, h2⟩ => ⟨h2, h1⟩⟩

/-- C10 witness: the mixed filter `[Online, streaming]` keeps exactly
`online` and does not fall back. -/
theorem c10_mixed_filter_witness :
    normalize_statuses (some [some "Online", some "streaming"]) =
        ([some "Online", some "streaming"].map normalize_status).filter
          is_tracked ∧
      ("online" ∈ normalize_statuses (some [some "Online", some "streaming"]) ↔
        (is_tracked "online" = true ∧
          "online" ∈ [some "Online", some "streaming"].map normalize_status)) :=
  ⟨((c10_mixed_filter [some "Online", some "streaming"]).1
      ⟨some "Online", by decide⟩).1,
   ((c10_mixed_filter [some "Online", some "streaming"]).1
      ⟨some "Online", by decide⟩).2 "online"⟩

/-- C1, evaluation at the failing input: from the empty store, `setup`
at 0 then a transition `offline → online` at 0 leaves an open store row
*and* an in-memory active session for the key.  A default-filter query
at `now = 100` returns 200: the open row fetched from the store
contributes `now - started_at = 100` and the active-session add-on
contributes the same 100 again, while the claimed value — the closed
rows' sum (here 0) plus exactly one open contribution — is 100. -/
theorem c1_double_count_at_failing_input :
    get_total_duration
        (handle_presence_update (setup emptySys 0) 1 42 (some "offline")
          (some "online") 0) 1 42 none 100 = 200 ∧
    (((((handle_presence_update (setup emptySys 0) 1 42 (some "offline")
            (some "online") 0).db.filter
          (fun r => matches_query 1 42 (normalize_statuses none) r &&
            r.ended_at != none)).map closed_span).sum) +
        active_contribution
          (handle_presence_update (setup emptySys 0) 1 42 (some "offline")
            (some "online") 0) 1 42 (normalize_statuses none) 100) = 100 := by
  constructor
  · rw [get_total_duration_eq]
    decide
  · decide

/-- C2, evaluation at the failing input: from the empty store after
`setup`, the two-call sequence `offline → online` at 0 then
`offline → idle` at 5 (a missed "before" event: the map holds an
`online` session) leaves TWO rows with `ended_at IS NULL` for the key —
the handler inserts the new `idle` row without closing the `online` one,
contradicting the at-most-one-open-row invariant. -/
theorem c2_two_open_rows_at_failing_input :
    (open_rows
        (handle_presence_update
          (handle_presence_update (setup emptySys 0) 1 2 (some "offline")
            (some "online") 0) 1 2 (some "offline") (some "idle") 5).db
      1 2).length = 2 := by
  decide

/-- C3, counterexample: it is not true that a store failure always
surfaces before the in-memory map is mutated.  With an active `online`
session, handling `online → offline` pops the map entry first
(`src/tracker.py` line 98) and only then awaits the store close (line
101); when that first store call raises, the error state has the entry
removed while the row is still open. -/
theorem c3_atomicity_counterexample :
    ¬ (∀ (sys : Sys) (g u : Int) (b a : Option String) (ts : Int) (e : Sys),
        handle_presence_updateF (some 0) sys g u b a ts = Except.error e →
        e.active = sys.active) := by
  intro h
  have hbad :=
    h { db := [{ row_id := 1, guild_id := 1, user_id := 2, status := "online",
                 started_at := 0, ended_at := none }],
        nextId := 2,
        active := [((1, 2), { row_id := 1, started_at := 0,
                              status := "online" })] }
      1 2 (some "online") (some "offline") 7
      { db := [{ row_id := 1, guild_id := 1, user_id := 2, status := "online",
                 started_at := 0, ended_at := none }],
        nextId := 2, active := [] }
      (by rfl)
  exact absurd hbad (by decide)

/-- C3, amended: when the first store operation of a
`handle_presence_update` invocation fails, no store effect has applied
(`e.db = sys.db`), and the in-memory map is either untouched (failures
of the insert path, which awaits the store before assigning the map) or
differs exactly by the removal of the key's entry (failures of the close
path, whose `dict.pop` precedes the store call) — so memory and store
can diverge by one removed entry over a still-open row. -/
theorem c3_atomicity_amended (sys : Sys) (g u : Int) (b a : Option String)
    (ts : Int) (e : Sys)
    (h : handle_presence_updateF (some 0) sys g u b a ts = Except.error e) :
    e.db = sys.db ∧
      (e.active = sys.active ∨ e.active = eraseKey sys.active (g, u)) := by
  simp only [handle_presence_updateF] at h
  cases hl : lookupKey sys.active (g, u) with
  | none =>
      rw [hl] at h
      have hscn : ∀ bt at1 s, should_close none bt at1 s = false := by
        intro bt at1 s
        cases bt <;> simp [should_close]
      rw [hscn] at h
      simp only [Bool.false_eq_true, if_false] at h
      cases hat : is_tracked (normalize_status a) with
      | true =>
          rw [hat] at h
          simp [open_newF, insert_sessionF, Except.map] at h
          subst h
          exact ⟨rfl, Or.inl rfl⟩
      | false =>
          rw [hat] at h
          simp at h
  | some act =>
      rw [hl] at h
      cases hsc : should_close (some act) (is_tracked (normalize_status b))
          (is_tracked (normalize_status a)) (normalize_status a) with
      | true =>
          rw [hsc] at h
          simp only [if_true, close_sessionF, hl] at h
          simp only [reduceIte, Except.error.injEq] at h
          subst h
          exact ⟨rfl, Or.inr rfl⟩
      | false =>
          rw [hsc] at h
          simp only [Bool.false_eq_true, if_false] at h
          cases hat : is_tracked (normalize_status a) with
          | true =>
              rw [hat] at h
              by_cases hst : (act.status != normalize_status a) = true
              · simp [hst, open_newF, insert_sessionF, Except.map] at h
                subst h
                exact ⟨rfl, Or.inl rfl⟩
              · simp [hst] at h
          | false =>
              rw [hat] at h
              simp only [Bool.false_eq_true, if_false, close_sessionF, hl] at h
              simp only [reduceIte, Except.map, Except.error.injEq] at h
              subst h
              exact ⟨rfl, Or.inr rfl⟩

/-- C3 witness for the amended theorem: an insert-path failure (empty
map, transition to `online`) surfaces with the state untouched. -/
theorem c3_atomicity_amended_witness :
    Sys.db emptySys = Sys.db emptySys ∧
      (Sys.active emptySys = Sys.active emptySys ∨
        Sys.active emptySys = eraseKey (Sys.active emptySys) (1, 2)) :=
  c3_atomicity_amended emptySys 1 2 none (some "online") 5 emptySys (by rfl)

end Tracker
